import Mathlib

/-!
Verification of the Redis distributed lock (`redis-lock.py`)

Shallow embedding of the `Lock` class and its three Lua scripts.

Modelling conventions:
* All lock handles in the claims contend on a single name, so the store is
  modelled as the state of that one key: `Store := Option LockRecord`.
* Tokens and stored values are already-encoded byte strings, modelled as `ℕ`;
  the redis encoder (`encoder.encode`) is the identity on them, and the
  normalisation branch of `owned` (which only re-encodes non-byte replies)
  is likewise the identity.
* Seconds are `ℚ`, milliseconds are `ℤ`.  Python `int()` truncates toward
  zero; `pyInt` embeds it on rationals.
* Raised exceptions are `Except.error`; since `release`/`extend`/`reacquire`
  mutate the handle before or while raising, every method returns the final
  handle and store alongside the `Except` outcome.
* The acquisition loop interacts with an external world (other clients
  mutating the store, the monotonic clock); each loop iteration reads the
  current store state and a clock value from a finite observation trace
  (`List IterObs`).  An exhausted trace yields `none` (the run is still in
  the loop after the observed iterations).
-/

/-- Python `int()` on a rational: truncation toward zero
(`Int.div` is T-division). -/
def pyInt (q : ℚ) : ℤ := q.num.tdiv q.den

/-- A store-resident lock record: the key holds a value (the owning token)
and an optional TTL in milliseconds (`none` = no expiry / persistent key). -/
structure LockRecord where
  value : ℕ
  ttl : Option ℤ
deriving DecidableEq, Repr

/-- The state of the single contended key. -/
abbrev Store := Option LockRecord

/-- `redis.get(name)`: the stored value, if the key exists. -/
def storeGet (s : Store) : Option ℕ := s.map (fun r => r.value)

/-- Redis `PTTL`: -2 when the key is absent, -1 when it exists without an
expiry, otherwise the remaining TTL in milliseconds. -/
def pttl (s : Store) : ℤ :=
  match s with
  | none => -2
  | some r => match r.ttl with | none => -1 | some t => t

/-- `LUA_RELEASE_SCRIPT`: get the value; on absence or mismatch return 0
without touching the record; on match delete the key and return 1. -/
def luaRelease (s : Store) (tok : ℕ) : Store × ℕ :=
  match s with
  | none => (none, 0)
  | some r => if r.value ≠ tok then (some r, 0) else (none, 1)

/-- `LUA_EXTEND_SCRIPT`: get the value; on absence or mismatch return 0.
Read the remaining TTL via `pttl` (the key exists here, so it is -1 for a
persistent key, else ≥ 0; the Lua `if not expiration` branch is dead code
since `pttl` never returns nil).  A negative remaining TTL returns 0 with
the record untouched.  Otherwise the new TTL is `deltaMs` when the replace
flag is set ("1") and `deltaMs + expiration` when it is "0"; `pexpire`
applies it and the script returns 1. -/
def luaExtend (s : Store) (tok : ℕ) (deltaMs : ℤ) (replaceFlag : Bool) : Store × ℕ :=
  match s with
  | none => (none, 0)
  | some r =>
    if r.value ≠ tok then (some r, 0)
    else
      let expiration : ℤ := match r.ttl with | none => -1 | some t => t
      if expiration < 0 then (some r, 0)
      else
        let newttl : ℤ := if replaceFlag then deltaMs else deltaMs + expiration
        (some { r with ttl := some newttl }, 1)

/-- `LUA_REACQUIRE_SCRIPT`: get the value; on absence or mismatch return 0;
on match `pexpire` the key to the given TTL unconditionally and return 1. -/
def luaReacquire (s : Store) (tok : ℕ) (ttlMs : ℤ) : Store × ℕ :=
  match s with
  | none => (none, 0)
  | some r => if r.value ≠ tok then (some r, 0) else (some { r with ttl := some ttlMs }, 1)

/-- The two user-visible exception kinds: `LockError` (usage error) and its
subclass `LockNotOwnedError` (ownership loss reported by a script). -/
inductive LockErr where
  | lockError (msg : String)
  | lockNotOwnedError (msg : String)
deriving DecidableEq, Repr

/-- The lock handle: configuration plus the locally-believed current token
(`self.local.token`; the thread-local/shared distinction is irrelevant to a
single calling context and not modelled). -/
structure Lock where
  timeout : Option ℚ
  sleep : ℚ
  blocking : Bool
  blocking_timeout : Option ℚ
  token : Option ℕ
deriving DecidableEq, Repr

namespace Lock

/-- `do_acquire`: convert the configured timeout to milliseconds when it is
truthy (`if self.timeout:` — both `None` and `0` are falsy and yield no
expiry), then `SET name token NX PX timeout`: succeeds only when the key is
absent. -/
def do_acquire (l : Lock) (tok : ℕ) (s : Store) : Store × Bool :=
  let timeoutMs : Option ℤ :=
    match l.timeout with
    | some t => if t ≠ 0 then some (pyInt (t * 1000)) else none
    | none => none
  match s with
  | some r => (some r, false)
  | none => (some ⟨tok, timeoutMs⟩, true)

end Lock

/-- What one iteration of the acquisition loop observes from the outside
world: the store state its `do_acquire` runs against, and the
`time.monotonic()` reading used to compute the next retry instant. -/
structure IterObs where
  store : Store
  now : ℚ
deriving DecidableEq, Repr

namespace Lock

/-- The `while True` loop of `acquire`, driven by an observation trace.
Returns `(result, handle, store, sleeps)` where `sleeps` counts executed
`time.sleep(self.sleep)` calls before returning, or `none` when the trace
is exhausted with the loop still running. -/
def acquireLoop (l : Lock) (tok : ℕ) (blocking : Bool) (stop : Option ℚ) :
    List IterObs → Option (Bool × Lock × Store × ℕ)
  | [] => none
  | ob :: rest =>
    let res := l.do_acquire tok ob.store
    if res.2 then some (true, { l with token := some tok }, res.1, 0)
    else if blocking = false then some (false, l, res.1, 0)
    else if (match stop with
             | some st => decide (ob.now + l.sleep > st)
             | none => false) then some (false, l, res.1, 0)
    else (l.acquireLoop tok blocking stop rest).map
      (fun x => (x.1, x.2.1, x.2.2.1, x.2.2.2 + 1))

/-- `acquire(blocking=None, blocking_timeout=None, token=None)`: a generated
token (`gen`, standing for `uuid.uuid1().hex.encode()`) is used when none is
supplied; call-site `blocking`/`blocking_timeout` override the handle
defaults when not `None`; the deadline is `now0 + blocking_timeout` on the
monotonic clock when a blocking timeout resolves. -/
def acquire (l : Lock) (blocking? : Option Bool) (blocking_timeout? : Option ℚ)
    (token? : Option ℕ) (gen : ℕ) (now0 : ℚ) (tr : List IterObs) :
    Option (Bool × Lock × Store × ℕ) :=
  let tok := token?.getD gen
  let blocking := blocking?.getD l.blocking
  let bt := blocking_timeout?.orElse (fun _ => l.blocking_timeout)
  let stop := bt.map (fun b => now0 + b)
  l.acquireLoop tok blocking stop tr

/-- `locked()`: `self.redis.get(self.name) is not None`. -/
def locked (_l : Lock) (s : Store) : Bool := (storeGet s).isSome

/-- `owned()`: the stored value (already bytes in this model, so the
re-encoding branch is the identity) equals a non-`None` local token. -/
def owned (l : Lock) (s : Store) : Bool :=
  l.token.isSome && storeGet s == l.token

/-- `do_release`: run the RELEASE script once; a zero reply raises
`LockNotOwnedError`. -/
def do_release (l : Lock) (s : Store) (expected_token : ℕ) :
    Lock × Store × Except LockErr Unit :=
  let r := luaRelease s expected_token
  if r.2 = 0 then
    (l, r.1, Except.error (LockErr.lockNotOwnedError ("Cannot release a lock that is no longer owned")))
  else (l, r.1, Except.ok ())

/-- `release()`: a `None` local token raises `LockError` with no remote
call; otherwise the local token is cleared first and `do_release` runs with
the previously held token. -/
def release (l : Lock) (s : Store) : Lock × Store × Except LockErr Unit :=
  match l.token with
  | none => (l, s, Except.error (LockErr.lockError ("Cannot release an unlocked lock")))
  | some t => ({ l with token := none }).do_release s t

end Lock

/-- The `additional_time = int(additional_time * 1000)` conversion of
`do_extend`. -/
def extendDeltaMs (additional_time : ℚ) : ℤ := pyInt (additional_time * 1000)

namespace Lock

/-- `do_extend`: run the EXTEND script once with the truncated millisecond
delta and the replace flag (`"1"`/`"0"`); a zero reply raises
`LockNotOwnedError`, otherwise the method returns `True`.  The token is the
handle's current one, passed explicitly by `extend` after its `None` check. -/
def do_extend (l : Lock) (s : Store) (additional_time : ℚ) (replace_ttl : Bool)
    (tok : ℕ) : Lock × Store × Except LockErr Bool :=
  let r := luaExtend s tok (extendDeltaMs additional_time) replace_ttl
  if r.2 = 0 then
    (l, r.1, Except.error (LockErr.lockNotOwnedError ("Cannot extend a lock that is no longer owned")))
  else (l, r.1, Except.ok true)

/-- `extend(additional_time, replace_ttl=False)`: raises `LockError` when no
token is held or when `self.timeout is None`; otherwise defers to
`do_extend`. -/
def extend (l : Lock) (s : Store) (additional_time : ℚ) (replace_ttl : Bool) :
    Lock × Store × Except LockErr Bool :=
  match l.token with
  | none => (l, s, Except.error (LockErr.lockError ("Cannot extend an unlocked lock")))
  | some t =>
    match l.timeout with
    | none => (l, s, Except.error (LockErr.lockError ("Cannot extend a lock with no timeout")))
    | some _ => l.do_extend s additional_time replace_ttl t

/-- `do_reacquire`: run the REACQUIRE script once with
`int(self.timeout * 1000)`; a zero reply raises `LockNotOwnedError`,
otherwise the method returns `True`.  Token and timeout are the handle's
current ones, passed explicitly by `reacquire` after its `None` checks. -/
def do_reacquire (l : Lock) (s : Store) (tok : ℕ) (timeoutSec : ℚ) :
    Lock × Store × Except LockErr Bool :=
  let r := luaReacquire s tok (pyInt (timeoutSec * 1000))
  if r.2 = 0 then
    (l, r.1, Except.error (LockErr.lockNotOwnedError ("Cannot reacquire a lock that is no longer owned")))
  else (l, r.1, Except.ok true)

/-- `reacquire()`: raises `LockError` when no token is held or when
`self.timeout is None`; otherwise defers to `do_reacquire`. -/
def reacquire (l : Lock) (s : Store) : Lock × Store × Except LockErr Bool :=
  match l.token with
  | none => (l, s, Except.error (LockErr.lockError ("Cannot reacquire an unlocked lock")))
  | some t =>
    match l.timeout with
    | none => (l, s, Except.error (LockErr.lockError ("Cannot reacquire a lock with no timeout")))
    | some T => l.do_reacquire s t T

/-- `__enter__`: `acquire()` with all defaults; on `False` raise
`LockError("Unable to acquire lock within the time specified")`. -/
def enter (l : Lock) (gen : ℕ) (now0 : ℚ) (tr : List IterObs) :
    Option (Lock × Store × Except LockErr Unit) :=
  match l.acquire none none none gen now0 tr with
  | none => none
  | some (true, l1, s1, _) => some (l1, s1, Except.ok ())
  | some (false, l1, s1, _) =>
    some (l1, s1, Except.error (LockErr.lockError ("Unable to acquire lock within the time specified")))

/-- `__exit__`: unconditionally `self.release()` (the exception triple is
ignored). -/
def exit (l : Lock) (s : Store) : Lock × Store × Except LockErr Unit :=
  l.release s

end Lock

/-- Outcome of leaving a `with` block: an exception raised by `__exit__`
replaces the in-flight one; otherwise the body's outcome propagates
(`__exit__` returns `None`, which is falsy, so a body exception is
re-raised). -/
def exitCombine : Except LockErr Unit → Except LockErr Unit → Except LockErr Unit
  | b, Except.ok _ => b
  | _, Except.error e => Except.error e

/-- Python `with lock: body` semantics — `__enter__`; when it raises, the
body never runs and no release happens; when it succeeds, the body runs and
`__exit__` (i.e. `release`) runs on every exit path, normal or unwinding. -/
def withLock (l : Lock) (gen : ℕ) (now0 : ℚ) (tr : List IterObs)
    (body : Lock → Store → Store × Except LockErr Unit) :
    Option (Lock × Store × Except LockErr Unit) :=
  match l.enter gen now0 tr with
  | none => none
  | some (l1, s1, Except.error e) => some (l1, s1, Except.error e)
  | some (l1, s1, Except.ok _) =>
    let b := body l1 s1
    let r := l1.exit b.1
    some (r.1, r.2.1, exitCombine b.2 r.2.2)

/-- A body that does nothing, for concrete scoped-use runs. -/
def trivialBody : Lock → Store → Store × Except LockErr Unit :=
  fun _ s => (s, Except.ok ())

/-! ## Claim theorems -/

/-- Claim C1: when the key is present, its stored value equals the presented
token and the remaining TTL is nonnegative, the EXTEND script sets the new
TTL to `deltaMs` when the replace flag is set and to `deltaMs + remainingTTL`
otherwise and signals success (returns 1); on key absence, token mismatch or
negative remaining TTL it signals failure (returns 0) without changing the
record, and the caller surfaces that failure as a `LockNotOwnedError`. -/
theorem lua_extend_spec (s : Store) (r : LockRecord) (tok : ℕ) (delta : ℤ)
    (rep : Bool) (l : Lock) (a : ℚ) :
    (s = some r → r.value = tok → 0 ≤ pttl s →
      luaExtend s tok delta rep =
        (some { r with ttl := some (if rep then delta else delta + pttl s) }, 1)) ∧
    (s = none → luaExtend s tok delta rep = (s, 0)) ∧
    (s = some r → r.value ≠ tok → luaExtend s tok delta rep = (s, 0)) ∧
    (s = some r → pttl s < 0 → luaExtend s tok delta rep = (s, 0)) ∧
    ((luaExtend s tok (extendDeltaMs a) rep).2 = 0 →
      l.do_extend s a rep tok =
        (l, (luaExtend s tok (extendDeltaMs a) rep).1,
         Except.error (LockErr.lockNotOwnedError ("Cannot extend a lock that is no longer owned")))) := by
  refine ⟨?_, ?_, ?_, ?_, ?_⟩
  · rintro rfl hv hp
    obtain ⟨v, ttl⟩ := r
    cases ttl with
    | none => simp [pttl] at hp
    | some t =>
      simp only [pttl] at hp ⊢
      simp only at hv
      simp [luaExtend, hv, not_lt.mpr hp]
  · rintro rfl; rfl
  · rintro rfl hv
    simp [luaExtend, hv]
  · rintro rfl hp
    obtain ⟨v, ttl⟩ := r
    by_cases hv : v = tok
    · cases ttl with
      | none => simp [luaExtend, hv]
      | some t =>
        simp only [pttl] at hp
        simp [luaExtend, hv, hp]
    · simp [luaExtend, hv]
  · intro hz
    simp [Lock.do_extend, hz]

/-- Witness for C1, matching the spec example: with remaining TTL 2000 ms,
extending by 5000 ms yields 7000 ms when adding and 5000 ms when replacing;
and against a mismatched token the script fails and the caller raises. -/
theorem lua_extend_spec_witness :
    luaExtend (some ⟨7, some 2000⟩) 7 5000 false = (some ⟨7, some 7000⟩, 1) ∧
    luaExtend (some ⟨7, some 2000⟩) 7 5000 true = (some ⟨7, some 5000⟩, 1) ∧
    (Lock.do_extend ⟨some 10, 1/10, true, none, some 7⟩ (some ⟨9, some 2000⟩) 5 false 7).2.2 =
      Except.error (LockErr.lockNotOwnedError ("Cannot extend a lock that is no longer owned")) := by
  refine ⟨?_, ?_, ?_⟩
  · have h := (lua_extend_spec (some ⟨7, some 2000⟩) ⟨7, some 2000⟩ 7 5000 false
      ⟨some 10, 1/10, true, none, some 7⟩ 5).1 rfl rfl (by decide)
    simpa using h
  · have h := (lua_extend_spec (some ⟨7, some 2000⟩) ⟨7, some 2000⟩ 7 5000 true
      ⟨some 10, 1/10, true, none, some 7⟩ 5).1 rfl rfl (by decide)
    simpa using h
  · have h := (lua_extend_spec (some ⟨9, some 2000⟩) ⟨9, some 2000⟩ 7 (extendDeltaMs 5) false
      ⟨some 10, 1/10, true, none, some 7⟩ 5).2.2.2.2 (by decide)
    rw [h]

/-- Claim C4: when the stored value equals the presented token the REACQUIRE
script unconditionally resets the TTL to the caller-supplied full timeout in
milliseconds, regardless of the remaining TTL, and returns 1; on key absence
or token mismatch it returns 0, which `do_reacquire` surfaces as a
`LockNotOwnedError`; `do_reacquire` passes `int(timeout * 1000)`. -/
theorem lua_reacquire_spec (s : Store) (r : LockRecord) (tok : ℕ) (ms : ℤ)
    (l : Lock) (T : ℚ) :
    (s = some r → r.value = tok →
      luaReacquire s tok ms = (some { r with ttl := some ms }, 1)) ∧
    (s = none → luaReacquire s tok ms = (s, 0)) ∧
    (s = some r → r.value ≠ tok → luaReacquire s tok ms = (s, 0)) ∧
    ((luaReacquire s tok (pyInt (T * 1000))).2 = 0 →
      l.do_reacquire s tok T =
        (l, (luaReacquire s tok (pyInt (T * 1000))).1,
         Except.error (LockErr.lockNotOwnedError ("Cannot reacquire a lock that is no longer owned")))) := by
  refine ⟨?_, ?_, ?_, ?_⟩
  · rintro rfl hv
    simp [luaReacquire, hv]
  · rintro rfl; rfl
  · rintro rfl hv
    simp [luaReacquire, hv]
  · intro hz
    simp [Lock.do_reacquire, hz]

/-- Witness for C4: with any remaining TTL (here 123 ms, and also a
persistent key) a matching reacquire resets the TTL to the full 10000 ms. -/
theorem lua_reacquire_spec_witness :
    luaReacquire (some ⟨7, some 123⟩) 7 10000 = (some ⟨7, some 10000⟩, 1) ∧
    luaReacquire (some ⟨7, none⟩) 7 10000 = (some ⟨7, some 10000⟩, 1) ∧
    luaReacquire none 7 10000 = (none, 0) := by
  refine ⟨?_, ?_, ?_⟩
  · exact (lua_reacquire_spec (some ⟨7, some 123⟩) ⟨7, some 123⟩ 7 10000
      ⟨some 10, 1/10, true, none, some 7⟩ 10).1 rfl rfl
  · exact (lua_reacquire_spec (some ⟨7, none⟩) ⟨7, none⟩ 7 10000
      ⟨some 10, 1/10, true, none, some 7⟩ 10).1 rfl rfl
  · exact (lua_reacquire_spec none ⟨7, none⟩ 7 10000
      ⟨some 10, 1/10, true, none, some 7⟩ 10).2.1 rfl

/-- Claim C2: `release()` with a `None` local token raises the usage error
and performs no remote call (handle and store unchanged); with a held token
it clears the local token and runs the RELEASE script, surfacing a zero
reply as `LockNotOwnedError` and a nonzero reply as success — and in every
case the handle's local token is `None` afterwards. -/
theorem release_spec (l : Lock) (s : Store) (t : ℕ) :
    (l.token = none →
      l.release s = (l, s, Except.error (LockErr.lockError ("Cannot release an unlocked lock")))) ∧
    (l.token = some t →
      (l.release s).1 = { l with token := none } ∧
      (l.release s).2.1 = (luaRelease s t).1 ∧
      ((luaRelease s t).2 = 0 →
        (l.release s).2.2 =
          Except.error (LockErr.lockNotOwnedError ("Cannot release a lock that is no longer owned"))) ∧
      ((luaRelease s t).2 ≠ 0 → (l.release s).2.2 = Except.ok ())) ∧
    (l.release s).1.token = none := by
  refine ⟨?_, ?_, ?_⟩
  · intro h; simp [Lock.release, h]
  · intro h
    refine ⟨?_, ?_, ?_, ?_⟩ <;>
      simp only [Lock.release, h, Lock.do_release] <;> split <;> simp_all
  · cases hl : l.token with
    | none => simp [Lock.release, hl]
    | some t0 =>
      simp only [Lock.release, hl, Lock.do_release]
      split <;> simp

/-- Witness for C2: releasing after the record was externally removed
(store empty, simulated expiry) raises the ownership-loss error and still
clears the local token; releasing with no token raises the usage error. -/
theorem release_spec_witness :
    ((⟨some 10, 1/10, true, none, some 7⟩ : Lock).release none).1.token = none ∧
    ((⟨some 10, 1/10, true, none, some 7⟩ : Lock).release none).2.2 =
      Except.error (LockErr.lockNotOwnedError ("Cannot release a lock that is no longer owned")) ∧
    (⟨some 10, 1/10, true, none, none⟩ : Lock).release none =
      (⟨some 10, 1/10, true, none, none⟩, none,
       Except.error (LockErr.lockError ("Cannot release an unlocked lock"))) := by
  refine ⟨?_, ?_, ?_⟩
  · exact (release_spec ⟨some 10, 1/10, true, none, some 7⟩ none 7).2.2
  · exact ((release_spec ⟨some 10, 1/10, true, none, some 7⟩ none 7).2.1 rfl).2.2.1 (by decide)
  · exact (release_spec ⟨some 10, 1/10, true, none, none⟩ none 7).1 rfl

/-- Claim C5: `locked()` is true iff a record exists for the name, whatever
token holds it; `owned()` is true iff the handle's local token is non-`None`
and equals the stored value; a second handle holding a different token on
the same name sees `owned() = false` and `locked() = true`. -/
theorem locked_owned_spec (l l2 : Lock) (s : Store) (ttl : Option ℤ) (t t2 : ℕ) :
    (l.locked s = true ↔ s ≠ none) ∧
    (l.owned s = true ↔ (l.token ≠ none ∧ storeGet s = l.token)) ∧
    (l.token = some t → l2.token = some t2 → t ≠ t2 → s = some ⟨t, ttl⟩ →
      l.owned s = true ∧ l2.owned s = false ∧ l2.locked s = true) := by
  refine ⟨?_, ?_, ?_⟩
  · cases s <;> simp [Lock.locked, storeGet]
  · cases hl : l.token with
    | none => simp [Lock.owned, hl]
    | some t0 =>
      cases s with
      | none => simp [Lock.owned, hl, storeGet]
      | some r => simp [Lock.owned, hl, storeGet]
  · rintro h1 h2 hne rfl
    refine ⟨?_, ?_, ?_⟩
    · simp [Lock.owned, h1, storeGet]
    · simp [Lock.owned, h2, storeGet, hne]
    · simp [Lock.locked, storeGet]

/-- Witness for C5: token 1 holds the record; the holder reports
`owned() = true`, a handle holding token 2 reports `owned() = false` and
`locked() = true`. -/
theorem locked_owned_spec_witness :
    (⟨some 10, 1/10, true, none, some 1⟩ : Lock).owned (some ⟨1, some 5000⟩) = true ∧
    (⟨some 10, 1/10, true, none, some 2⟩ : Lock).owned (some ⟨1, some 5000⟩) = false ∧
    (⟨some 10, 1/10, true, none, some 2⟩ : Lock).locked (some ⟨1, some 5000⟩) = true :=
  locked_owned_spec ⟨some 10, 1/10, true, none, some 1⟩ ⟨some 10, 1/10, true, none, some 2⟩
    (some ⟨1, some 5000⟩) (some 5000) 1 2 |>.2.2 rfl rfl (by decide) rfl

/-- Claim C10: `extend()` and `reacquire()` never return `False`: every
normal return is `True`, and each failure mode (no local token, no
configured timeout, conditional-script failure) raises an exception. -/
theorem extend_reacquire_never_false (l : Lock) (s : Store) (a : ℚ) (rep : Bool) :
    (l.extend s a rep).2.2 ≠ Except.ok false ∧
    (l.reacquire s).2.2 ≠ Except.ok false ∧
    (l.token = none →
      (l.extend s a rep).2.2 = Except.error (LockErr.lockError ("Cannot extend an unlocked lock")) ∧
      (l.reacquire s).2.2 =
        Except.error (LockErr.lockError ("Cannot reacquire an unlocked lock"))) ∧
    (l.token ≠ none → l.timeout = none →
      (l.extend s a rep).2.2 =
        Except.error (LockErr.lockError ("Cannot extend a lock with no timeout")) ∧
      (l.reacquire s).2.2 =
        Except.error (LockErr.lockError ("Cannot reacquire a lock with no timeout"))) := by
  refine ⟨?_, ?_, ?_, ?_⟩
  · cases hl : l.token with
    | none => simp [Lock.extend, hl]
    | some t =>
      cases ht : l.timeout with
      | none => simp [Lock.extend, hl, ht]
      | some T =>
        simp only [Lock.extend, hl, ht, Lock.do_extend]
        split <;> simp
  · cases hl : l.token with
    | none => simp [Lock.reacquire, hl]
    | some t =>
      cases ht : l.timeout with
      | none => simp [Lock.reacquire, hl, ht]
      | some T =>
        simp only [Lock.reacquire, hl, ht, Lock.do_reacquire]
        split <;> simp
  · intro hl
    constructor <;> simp [Lock.extend, Lock.reacquire, hl]
  · intro hl ht
    cases hl2 : l.token with
    | none => exact absurd hl2 hl
    | some t => constructor <;> simp [Lock.extend, Lock.reacquire, hl2, ht]

/-- Witness for C10: a successful extend and reacquire return `True` (never
`False`), and the no-timeout handle raises the usage error. -/
theorem extend_reacquire_never_false_witness :
    ((⟨some 10, 1/10, true, none, some 7⟩ : Lock).extend (some ⟨7, some 1000⟩) 1 false).2.2 ≠
      Except.ok false ∧
    ((⟨some 10, 1/10, true, none, some 7⟩ : Lock).reacquire (some ⟨7, some 1000⟩)).2.2 ≠
      Except.ok false ∧
    ((⟨none, 1/10, true, none, some 7⟩ : Lock).extend (some ⟨7, some 1000⟩) 1 false).2.2 =
      Except.error (LockErr.lockError ("Cannot extend a lock with no timeout")) := by
  refine ⟨?_, ?_, ?_⟩
  · exact (extend_reacquire_never_false ⟨some 10, 1/10, true, none, some 7⟩
      (some ⟨7, some 1000⟩) 1 false).1
  · exact (extend_reacquire_never_false ⟨some 10, 1/10, true, none, some 7⟩
      (some ⟨7, some 1000⟩) 1 false).2.1
  · exact ((extend_reacquire_never_false ⟨none, 1/10, true, none, some 7⟩
      (some ⟨7, some 1000⟩) 1 false).2.2.2 (by decide) rfl).1

/-- Claim C3: one iteration of the acquisition loop — on `do_acquire`
success the token is stored on the handle and the loop returns `True` with
no sleep; on failure with resolved blocking `False` it returns `False`
immediately with no sleep; on failure with blocking and a deadline it
returns `False` with no sleep as soon as `now + sleep` exceeds the
deadline, and otherwise (no deadline, or next retry within it) it sleeps
once and retries on the rest of the trace. -/
theorem acquire_loop_spec (l : Lock) (tok : ℕ) (blocking : Bool)
    (stop : Option ℚ) (st : ℚ) (ob : IterObs) (rest : List IterObs) :
    ((l.do_acquire tok ob.store).2 = true →
      l.acquireLoop tok blocking stop (ob :: rest) =
        some (true, { l with token := some tok }, (l.do_acquire tok ob.store).1, 0)) ∧
    ((l.do_acquire tok ob.store).2 = false → blocking = false →
      l.acquireLoop tok blocking stop (ob :: rest) =
        some (false, l, (l.do_acquire tok ob.store).1, 0)) ∧
    ((l.do_acquire tok ob.store).2 = false → blocking = true → stop = some st →
      ob.now + l.sleep > st →
      l.acquireLoop tok blocking stop (ob :: rest) =
        some (false, l, (l.do_acquire tok ob.store).1, 0)) ∧
    ((l.do_acquire tok ob.store).2 = false → blocking = true → stop = none →
      l.acquireLoop tok blocking stop (ob :: rest) =
        (l.acquireLoop tok blocking stop rest).map
          (fun x => (x.1, x.2.1, x.2.2.1, x.2.2.2 + 1))) ∧
    ((l.do_acquire tok ob.store).2 = false → blocking = true → stop = some st →
      ob.now + l.sleep ≤ st →
      l.acquireLoop tok blocking stop (ob :: rest) =
        (l.acquireLoop tok blocking stop rest).map
          (fun x => (x.1, x.2.1, x.2.2.1, x.2.2.2 + 1))) := by
  refine ⟨?_, ?_, ?_, ?_, ?_⟩
  · intro h
    simp [Lock.acquireLoop, h]
  · intro h hb
    simp [Lock.acquireLoop, h, hb]
  · intro h hb hs hgt
    simp [Lock.acquireLoop, h, hb, hs, hgt]
  · intro h hb hs
    simp [Lock.acquireLoop, h, hb, hs]
  · intro h hb hs hle
    simp [Lock.acquireLoop, h, hb, hs, not_lt.mpr hle]

/-- Witness for C3: an empty store makes the first iteration succeed with
the token stored and no sleep; a contested store with non-blocking returns
`False` with no sleep; a contested store with blocking and a deadline
already closer than one poll interval returns `False` with no sleep. -/
theorem acquire_loop_spec_witness :
    (⟨none, 1, true, none, none⟩ : Lock).acquireLoop 5 true none [⟨none, 0⟩] =
      some (true, ⟨none, 1, true, none, some 5⟩, some ⟨5, none⟩, 0) ∧
    (⟨none, 1, false, none, none⟩ : Lock).acquireLoop 5 false none [⟨some ⟨9, none⟩, 0⟩] =
      some (false, ⟨none, 1, false, none, none⟩, some ⟨9, none⟩, 0) ∧
    (⟨none, 1, true, none, none⟩ : Lock).acquireLoop 5 true (some 0)
        [⟨some ⟨9, none⟩, 0⟩] =
      some (false, ⟨none, 1, true, none, none⟩, some ⟨9, none⟩, 0) := by
  refine ⟨?_, ?_, ?_⟩
  · have h := (acquire_loop_spec ⟨none, 1, true, none, none⟩ 5 true none 0
      ⟨none, 0⟩ []).1 (by decide)
    simpa [Lock.do_acquire] using h
  · have h := (acquire_loop_spec ⟨none, 1, false, none, none⟩ 5 false none 0
      ⟨some ⟨9, none⟩, 0⟩ []).2.1 (by decide) rfl
    simpa [Lock.do_acquire] using h
  · have h := (acquire_loop_spec ⟨none, 1, true, none, none⟩ 5 true (some 0) 0
      ⟨some ⟨9, none⟩, 0⟩ []).2.2.1 (by decide) rfl rfl (by norm_num)
    simpa [Lock.do_acquire] using h

/-- Claim C6: on an absent key, `acquire()` succeeds in its first iteration
storing the token, and the following `release()` deletes the key and clears
the local token: the store ends absent and the handle token `None`. -/
theorem acquire_release_round_trip (l : Lock) (tok gen : ℕ) (blocking? : Option Bool)
    (bt? : Option ℚ) (now0 now1 : ℚ) :
    l.acquire blocking? bt? (some tok) gen now0 [⟨none, now1⟩] =
      some (true, { l with token := some tok }, (l.do_acquire tok none).1, 0) ∧
    ({ l with token := some tok }).release (l.do_acquire tok none).1 =
      ({ l with token := none }, none, Except.ok ()) := by
  constructor
  · simp [Lock.acquire, Lock.acquireLoop, Lock.do_acquire]
  · simp [Lock.release, Lock.do_release, Lock.do_acquire, luaRelease]

/-- On nonnegative rationals, Python `int()` truncation agrees with the
floor. -/
theorem pyInt_eq_floor (q : ℚ) (h : 0 ≤ q) : pyInt q = ⌊q⌋ := by
  rw [Rat.floor_def]
  unfold pyInt
  exact Int.tdiv_eq_ediv (Rat.num_nonneg.mpr h) (Int.natCast_nonneg _)

/-- Counterexample to C7 as stated: `do_extend` computes the millisecond
delta with Python `int()` (truncation toward zero), not `round()`: at
`additional_time = 3/2000` s (i.e. 1.5 ms) the EXTEND script receives 1 ms
whereas rounding gives 2 ms. -/
theorem extend_delta_not_round :
    extendDeltaMs (3/2000) = 1 ∧ round ((3/2000 : ℚ) * 1000) = 2 := by
  constructor
  · unfold extendDeltaMs
    rw [pyInt_eq_floor _ (by norm_num), Int.floor_eq_iff]
    norm_num
  · have h2 : (3/2000 : ℚ) * 1000 + 1/2 = 2 := by norm_num
    rw [round_eq, h2]
    simp

/-- Claim C7 amended: for every `extend(additional_time, ...)` call whose
local preconditions hold, the `deltaMs` argument passed to the EXTEND
script equals the truncation `int(additional_time * 1000)`, which for
nonnegative `additional_time` is `⌊additional_time * 1000⌋`. -/
theorem extend_delta_truncates (a : ℚ) (h : 0 ≤ a) :
    extendDeltaMs a = ⌊a * 1000⌋ := by
  unfold extendDeltaMs
  exact pyInt_eq_floor _ (by positivity)

/-- Witness for the amended C7 at the counterexample input: 1.5 ms
truncates to 1 ms. -/
theorem extend_delta_truncates_witness :
    (0 : ℚ) ≤ 3/2000 ∧ extendDeltaMs (3/2000) = ⌊(3/2000 : ℚ) * 1000⌋ :=
  ⟨by norm_num, extend_delta_truncates (3/2000) (by norm_num)⟩

/-- Claim C8: entering scoped use attempts `acquire()` with the handle
defaults; when that returns `False` the `with` block raises the usage error
and the body never runs (the outcome is the same for every body); when it
returns `True` the body runs and `release()` runs on every exit path,
normal or unwinding, leaving the handle token `None`. -/
theorem scoped_use_spec (l : Lock) (gen : ℕ) (now0 : ℚ) (tr : List IterObs)
    (body body2 : Lock → Store → Store × Except LockErr Unit)
    (l1 : Lock) (s1 : Store) (n : ℕ) :
    (l.acquire none none none gen now0 tr = some (false, l1, s1, n) →
      withLock l gen now0 tr body =
        some (l1, s1,
          Except.error (LockErr.lockError ("Unable to acquire lock within the time specified"))) ∧
      withLock l gen now0 tr body = withLock l gen now0 tr body2) ∧
    (l.acquire none none none gen now0 tr = some (true, l1, s1, n) →
      withLock l gen now0 tr body =
        some ((l1.release (body l1 s1).1).1, (l1.release (body l1 s1).1).2.1,
          exitCombine (body l1 s1).2 (l1.release (body l1 s1).1).2.2) ∧
      (l1.release (body l1 s1).1).1.token = none) := by
  constructor
  · intro h
    have he : l.enter gen now0 tr =
        some (l1, s1,
          Except.error (LockErr.lockError ("Unable to acquire lock within the time specified"))) := by
      simp [Lock.enter, h]
    constructor <;> simp [withLock, he]
  · intro h
    have he : l.enter gen now0 tr = some (l1, s1, Except.ok ()) := by
      simp [Lock.enter, h]
    constructor
    · simp [withLock, he, Lock.exit]
    · cases hl : l1.token with
      | none => simp [Lock.release, hl]
      | some t0 =>
        simp only [Lock.release, hl, Lock.do_release]
        split <;> simp

/-- Witness for C8: with the store held by token 9 and a non-blocking
handle, scoped use raises the acquisition usage error; with an empty store
it runs the (trivial) body, then release leaves the key absent and the
token `None`. -/
theorem scoped_use_spec_witness :
    withLock ⟨none, 1, false, none, none⟩ 5 0 [⟨some ⟨9, none⟩, 0⟩] trivialBody =
      some (⟨none, 1, false, none, none⟩, some ⟨9, none⟩,
        Except.error (LockErr.lockError ("Unable to acquire lock within the time specified"))) ∧
    withLock ⟨none, 1, true, none, none⟩ 5 0 [⟨none, 0⟩] trivialBody =
      some (⟨none, 1, true, none, none⟩, none, Except.ok ()) := by
  constructor
  · exact ((scoped_use_spec ⟨none, 1, false, none, none⟩ 5 0 [⟨some ⟨9, none⟩, 0⟩]
      trivialBody trivialBody ⟨none, 1, false, none, none⟩ (some ⟨9, none⟩) 0).1
      (by decide)).1
  · have h := ((scoped_use_spec ⟨none, 1, true, none, none⟩ 5 0 [⟨none, 0⟩]
      trivialBody trivialBody ⟨none, 1, true, none, some 5⟩ (some ⟨5, none⟩) 0).2
      (by decide)).1
    rw [h]
    rfl

/-- Claim C9: a handle configured with `timeout = 0` (falsy but not `None`)
acquires the record with no expiry at all, exactly as `timeout = None`
does, yet passes the `timeout is None` usage check of `extend`/`reacquire`
and proceeds to their scripts. -/
theorem zero_timeout_spec (l : Lock) (s : Store) (t tok : ℕ) (a : ℚ) (rep : Bool)
    (h : l.timeout = some 0) :
    l.do_acquire tok none = (some ⟨tok, none⟩, true) ∧
    l.do_acquire tok none = ({ l with timeout := none }).do_acquire tok none ∧
    (l.token = some t → l.extend s a rep = l.do_extend s a rep t) ∧
    (l.token = some t → l.reacquire s = l.do_reacquire s t 0) := by
  refine ⟨?_, ?_, ?_, ?_⟩
  · simp [Lock.do_acquire, h]
  · simp [Lock.do_acquire, h]
  · intro hl; simp [Lock.extend, hl, h]
  · intro hl; simp [Lock.reacquire, hl, h]

/-- Witness for C9: a `timeout = 0` handle acquires a record with no TTL
and its `extend` reaches `do_extend` (no usage error) rather than raising
the no-timeout error. -/
theorem zero_timeout_spec_witness :
    (⟨some 0, 1/10, true, none, some 7⟩ : Lock).do_acquire 7 none =
      (some ⟨7, none⟩, true) ∧
    (⟨some 0, 1/10, true, none, some 7⟩ : Lock).extend (some ⟨7, some 1000⟩) 1 false =
      (⟨some 0, 1/10, true, none, some 7⟩ : Lock).do_extend (some ⟨7, some 1000⟩) 1 false 7 :=
  ⟨(zero_timeout_spec ⟨some 0, 1/10, true, none, some 7⟩ (some ⟨7, some 1000⟩) 7 7 1 false rfl).1,
   (zero_timeout_spec ⟨some 0, 1/10, true, none, some 7⟩ (some ⟨7, some 1000⟩) 7 7 1 false rfl).2.2.1 rfl⟩
